import Mathlib

/-!
Verification development for the hdhr-epg-to-xml repository: a shallow
embedding of `src/hdhr_xmltv/hdhr_client.py` and
`src/hdhr_xmltv/xmltv_converter.py` into Lean, together with theorems
settling the specification claims about discovery, windowed guide
fetching, deduplication and XMLTV encoding.

Modelling conventions: Python `datetime` instants are epoch seconds
(`Int`); a timezone conversion (`astimezone`) is an abstract parameter
`toTz : Int → DateTime` producing local wall-clock fields; Python
strings are `String` (or `List Char` where slicing matters); fallible
code returns `Except`; network responses are supplied through oracles so
the control flow around them can be analysed.
-/

/-- Local wall-clock datetime after conversion into the target timezone,
mirroring the fields that `datetime.replace` and `strftime` touch.
`offMin` is the UTC offset in minutes used by the `%z` directive. -/
structure DateTime where
  year : Nat
  month : Nat
  day : Nat
  hour : Nat
  minute : Nat
  second : Nat
  microsecond : Nat
  offMin : Int
deriving DecidableEq

/-- `dt.replace(hour=0, minute=0, second=0, microsecond=0)`. -/
def truncMidnight (dt : DateTime) : DateTime :=
  { dt with hour := 0, minute := 0, second := 0, microsecond := 0 }

/-- Zero-pad to two digits. -/
def pad2 (n : Nat) : String :=
  if n < 10 then "0" ++ toString n else toString n

/-- Zero-pad to four digits. -/
def pad4 (n : Nat) : String :=
  if n < 10 then "000" ++ toString n
  else if n < 100 then "00" ++ toString n
  else if n < 1000 then "0" ++ toString n
  else toString n

/-- `strftime("%Y%m%d%H%M%S")`: full timestamp without timezone offset. -/
def strftime14 (dt : DateTime) : String :=
  pad4 dt.year ++ pad2 dt.month ++ pad2 dt.day ++
    pad2 dt.hour ++ pad2 dt.minute ++ pad2 dt.second

/-- The `%z` rendering of the UTC offset, `+HHMM` or `-HHMM`. -/
def offsetStr (m : Int) : String :=
  (if m < 0 then "-" else "+") ++ pad2 (m.natAbs / 60) ++ pad2 (m.natAbs % 60)

/-- `strftime("%Y%m%d%H%M%S %z")`: timestamp with timezone offset. -/
def strftimeZ (dt : DateTime) : String :=
  strftime14 dt ++ " " ++ offsetStr dt.offMin

/-- `ChannelInfo` dataclass from `hdhr_client.py`. -/
structure ChannelInfo where
  guide_number : String
  guide_name : String
  url : String
  image_url : Option String := none
deriving DecidableEq

/-- `ProgramInfo` dataclass from `hdhr_client.py`; instants are epoch
seconds. `filters` is a plain list because the parser supplies `[]` as
its default. -/
structure ProgramInfo where
  title : String
  start_time : Int
  end_time : Int
  guide_number : String
  synopsis : Option String := none
  episode_title : Option String := none
  episode_number : Option String := none
  image_url : Option String := none
  original_airdate : Option Int := none
  filters : List String := []
  first : Option Bool := none
deriving DecidableEq

/-- A leaf XML element (tag, attributes in insertion order, text). The
documents this program builds are at most three levels deep, so leaves
carry no children. -/
structure XmlLeaf where
  tag : String
  attrs : List (String × String)
  text : Option String := none
deriving DecidableEq

/-- A second-level XML element: `channel` or `programme`. -/
structure XmlElem where
  tag : String
  attrs : List (String × String)
  text : Option String := none
  children : List XmlLeaf := []
deriving DecidableEq

/-- The root `tv` element. -/
structure XmlRoot where
  tag : String
  attrs : List (String × String)
  children : List XmlElem := []
deriving DecidableEq

/-- Python truthiness of an optional string (`if x:`): present and
non-empty. -/
def truthyStr : Option String → Bool
  | some s => s ≠ ""
  | none => false

/-- First index of a character in a list, mirroring Python `str.index`
(only ever used under a containment guard). -/
def idxOfChar (c : Char) : List Char → Nat
  | [] => 0
  | d :: rest => if d = c then 0 else idxOfChar c rest + 1

/-- Python slice `s[a:b]`. -/
def pySlice (l : List Char) (a b : Nat) : List Char :=
  (l.take b).drop a

/-- ASCII whitespace recognised by Python `int()` stripping (unicode
whitespace is not modelled). -/
def pyIsSpace (c : Char) : Bool :=
  c == ' ' || c == '\t' || c == '\n' || c == '\r' || c == '\x0b' || c == '\x0c'

/-- Strip leading and trailing whitespace, as `int()` does before
parsing. -/
def pyStrip (l : List Char) : List Char :=
  ((l.dropWhile pyIsSpace).reverse.dropWhile pyIsSpace).reverse

/-- Value of a digit string, most significant first. -/
def digitsToNat (l : List Char) : Nat :=
  l.foldl (fun a c => a * 10 + (c.toNat - 48)) 0

/-- Parse a non-empty run of ASCII digits, else fail. -/
def digitsOnly (l : List Char) : Option Nat :=
  if l ≠ [] ∧ l.all Char.isDigit then some (digitsToNat l) else none

/-- Python `int(s)` for base 10: strip whitespace, optional sign, digit
run; raises `ValueError` (here `none`) otherwise. Underscore digit
separators are not modelled. -/
def pyInt (l : List Char) : Option Int :=
  match pyStrip l with
  | [] => none
  | c :: rest =>
    if c = '+' then (digitsOnly rest).map Int.ofNat
    else if c = '-' then (digitsOnly rest).map (fun n => -(n : Int))
    else (digitsOnly (c :: rest)).map Int.ofNat

/-- `XMLTVConverter._add_episode_numbering`: the elements appended to the
programme element and whether a parse warning was logged. The onscreen
element is appended first; the `xmltv_ns` element is appended only when
both integer parses succeed; `ValueError`/`IndexError` from the parses
is caught and logged as a warning. -/
def _add_episode_numbering (episode_number : List Char) : List XmlLeaf × Bool :=
  let onscreen : XmlLeaf :=
    { tag := "episode-num", attrs := [("system", "onscreen")],
      text := some (String.mk episode_number) }
  if 'S' ∈ episode_number ∧ 'E' ∈ episode_number then
    let series_start := idxOfChar 'S' episode_number + 1
    let series_end := idxOfChar 'E' episode_number
    let episode_start := idxOfChar 'E' episode_number + 1
    match pyInt (pySlice episode_number series_start series_end),
          pyInt (episode_number.drop episode_start) with
    | some sv, some ev =>
      let series_num := sv - 1
      let episode_num := ev - 1
      ([onscreen,
        { tag := "episode-num", attrs := [("system", "xmltv_ns")],
          text := some (toString series_num ++ "." ++ toString episode_num ++ ".0/0") }],
       false)
    | some _, none => ([onscreen], true)
    | none, _ => ([onscreen], true)
  else ([onscreen], false)

/-- `XMLTVConverter._add_episode_status`: the repeat/new status elements
appended to the programme element. `toTz` is `astimezone(self.timezone)`
on epoch instants. -/
def _add_episode_status (toTz : Int → DateTime) (p : ProgramInfo) : List XmlLeaf :=
  if p.first = some true then
    [{ tag := "new", attrs := [] }]
  else
    match p.original_airdate with
    | some ad =>
      let start_time := toTz p.start_time
      let start_date := truncMidnight start_time
      let air_date := toTz ad
      let air_date_only := truncMidnight air_date
      if air_date_only ≠ start_date then
        [{ tag := "previously-shown", attrs := [("start", strftime14 air_date)] }]
      else if p.first = some false then
        [{ tag := "previously-shown", attrs := [] }]
      else []
    | none =>
      if p.first = some false then
        [{ tag := "previously-shown", attrs := [] }]
      else []

/-- `XMLTVConverter._add_channel`: the channel element built for one
channel (`if channel.image_url:` is Python truthiness, so an empty
string yields no icon). -/
def _add_channel (channel : ChannelInfo) : XmlElem :=
  { tag := "channel", attrs := [("id", channel.guide_number)],
    children :=
      [{ tag := "display-name", attrs := [("lang", "en")], text := some channel.guide_name }]
      ++ (if truthyStr channel.image_url then
            [{ tag := "icon", attrs := [("src", channel.image_url.getD "")] }]
          else []) }

/-- `XMLTVConverter._add_program`: the programme element built for one
program. `cleanText` abstracts `_clean_text` (a regex-based pass no
claim depends on); `toTz` abstracts `astimezone(self.timezone)`. -/
def _add_program (cleanText : String → String) (toTz : Int → DateTime)
    (program : ProgramInfo) : XmlElem :=
  let start_time := toTz program.start_time
  let end_time := toTz program.end_time
  { tag := "programme",
    attrs := [("start", strftimeZ start_time), ("stop", strftimeZ end_time),
              ("channel", program.guide_number)],
    children :=
      [{ tag := "title", attrs := [("lang", "en")], text := some program.title }]
      ++ (if truthyStr program.episode_title then
            [{ tag := "sub-title", attrs := [("lang", "en")],
               text := some (program.episode_title.getD "") }]
          else [])
      ++ (if truthyStr program.synopsis then
            [{ tag := "desc", attrs := [("lang", "en")],
               text := some (cleanText (program.synopsis.getD "")) }]
          else [])
      ++ (if program.filters ≠ [] then
            program.filters.map (fun f =>
              { tag := "category", attrs := [("lang", "en")], text := some f })
          else [])
      ++ (if truthyStr program.image_url then
            [{ tag := "icon", attrs := [("src", program.image_url.getD "")] }]
          else [])
      ++ (if truthyStr program.episode_number then
            (_add_episode_numbering (program.episode_number.getD "").data).1
          else [])
      ++ _add_episode_status toTz program }

/-- `XMLTVConverter.convert_to_xmltv`: root element with metadata, then
one `channel` element appended per channel, then one `programme` element
appended per program. -/
def convert_to_xmltv (cleanText : String → String) (toTz : Int → DateTime)
    (channels : List ChannelInfo) (programs : List ProgramInfo)
    (generator_name generator_url : String) : XmlRoot :=
  let tv_root : XmlRoot :=
    { tag := "tv",
      attrs := [("source-info-name", "HDHomeRun"),
                ("generator-info-name", generator_name),
                ("generator-info-url", generator_url)],
      children := [] }
  let tv_root := channels.foldl
    (fun r ch => { r with children := r.children ++ [_add_channel ch] }) tv_root
  programs.foldl
    (fun r p => { r with children := r.children ++ [_add_program cleanText toTz p] }) tv_root

/-- A channel object from the decoded `lineup.json` array; every field
may be missing. -/
structure LineupEntry where
  GuideNumber : Option String := none
  GuideName : Option String := none
  URL : Option String := none
  ImageURL : Option String := none
deriving DecidableEq

/-- The two exception paths of `get_channels` that are converted into
`HDHomeRunAPIError`: a transport failure (`urllib.error.URLError`) and
an undecodable body (`json.JSONDecodeError`). -/
inductive LineupErr where
  | urlError
  | jsonError
deriving DecidableEq

/-- One iteration of the lineup parse loop: defaults `""`, `"Unknown"`,
`""` via `dict.get`, and `ImageURL` passed through as optional. -/
def parseChannelEntry (channel_data : LineupEntry) : ChannelInfo :=
  { guide_number := channel_data.GuideNumber.getD ""
    guide_name := channel_data.GuideName.getD "Unknown"
    url := channel_data.URL.getD ""
    image_url := channel_data.ImageURL }

/-- `HDHomeRunClient.get_channels`, with the transport and JSON decode
supplied as an `Except`-valued response: on a decoded array every entry
is parsed with defaults; only the two error paths raise. -/
def get_channels (response : Except LineupErr (List LineupEntry)) :
    Except LineupErr (List ChannelInfo) :=
  match response with
  | .error e => .error e
  | .ok data => .ok (data.map parseChannelEntry)

/-- A raw program object from the guide response (`program_data`). -/
structure GuideEntry where
  Title : Option String := none
  StartTime : Option Int := none
  EndTime : Option Int := none
  Synopsis : Option String := none
  EpisodeTitle : Option String := none
  EpisodeNumber : Option String := none
  ImageURL : Option String := none
  OriginalAirdate : Option Int := none
  Filter : Option (List String) := none
  First : Option Bool := none
deriving DecidableEq

/-- A per-channel object from the guide response (`channel_data`). -/
structure ChannelGuide where
  GuideNumber : Option String := none
  Guide : Option (List GuideEntry) := none
deriving DecidableEq

/-- Outcome of one guide HTTP request, as distinguished by the `except`
clauses in `get_epg_data`: a decoded body, an `HTTPError` with a status
code, a non-HTTP `URLError`, or a body that is not valid JSON. -/
inductive GuideResponse where
  | success (body : List ChannelGuide)
  | httpError (code : Nat)
  | urlError
  | invalidJson
deriving DecidableEq

/-- The `HDHomeRunAPIError` raise sites of `get_epg_data`:
`authRejected` is the 403-specific message at the
endpoints-times-user-agents threshold; `httpError` the non-403 HTTP
raise; `guideUnavailable` the `URLError`-on-last-endpoint raise;
`noEndpoint` the post-loop `"Failed to retrieve EPG data from any
endpoint"` raise; `invalidJson` the outer `JSONDecodeError` handler;
`keyError` the outer generic handler wrapping a `KeyError` escaping
`_parse_program_data`. -/
inductive FetchErr where
  | authRejected
  | httpError (code : Nat)
  | guideUnavailable
  | noEndpoint
  | invalidJson
  | keyError (field : String)
deriving DecidableEq

/-- `HDHomeRunClient._parse_program_data`: subscript access to
`StartTime` and `EndTime` raises `KeyError` when absent; every other
field is optional (`dict.get`), `Filter` defaulting to `[]`. No ordering
check between start and end is performed. -/
def _parse_program_data (program_data : GuideEntry) (guide_number : String) :
    Except FetchErr ProgramInfo :=
  match program_data.StartTime with
  | none => .error (.keyError "StartTime")
  | some start_time =>
    match program_data.EndTime with
    | none => .error (.keyError "EndTime")
    | some end_time =>
      .ok { title := program_data.Title.getD ""
            start_time := start_time
            end_time := end_time
            guide_number := guide_number
            synopsis := program_data.Synopsis
            episode_title := program_data.EpisodeTitle
            episode_number := program_data.EpisodeNumber
            image_url := program_data.ImageURL
            original_airdate := program_data.OriginalAirdate
            filters := program_data.Filter.getD []
            first := program_data.First }

/-- The duplicate test from `get_epg_data`: an accumulated program with
the same `(start_time, title, guide_number)` already exists. -/
def isDuplicate (programs : List ProgramInfo) (program : ProgramInfo) : Bool :=
  programs.any (fun p =>
    p.start_time == program.start_time &&
    p.title == program.title &&
    p.guide_number == program.guide_number)

/-- The inner entry loop of `get_epg_data`: parse each guide entry and
append it unless a duplicate is already accumulated; a `KeyError` from
the parse escapes the loop. -/
def addGuidePrograms (programs : List ProgramInfo) (guide_number : String) :
    List GuideEntry → Except FetchErr (List ProgramInfo)
  | [] => .ok programs
  | program_data :: rest =>
    match _parse_program_data program_data guide_number with
    | .error e => .error e
    | .ok program =>
      if isDuplicate programs program then
        addGuidePrograms programs guide_number rest
      else
        addGuidePrograms (programs ++ [program]) guide_number rest

/-- The channel loop of `get_epg_data`: skip guide groups whose
`GuideNumber` is not in the cached lineup, process the rest. -/
def processEpgBody (channels : List ChannelInfo) (programs : List ProgramInfo) :
    List ChannelGuide → Except FetchErr (List ProgramInfo)
  | [] => .ok programs
  | channel_data :: rest =>
    let guide_number := channel_data.GuideNumber.getD ""
    if channels.any (fun ch => ch.guide_number == guide_number) then
      match addGuidePrograms programs guide_number (channel_data.Guide.getD []) with
      | .error e => .error e
      | .ok programs' => processEpgBody channels programs' rest
    else
      processEpgBody channels programs rest

/-- Length of the `api_endpoints` list in `get_epg_data`. -/
def numEndpoints : Nat := 2

/-- Length of the `user_agents` list in `get_epg_data`. -/
def numUserAgents : Nat := 4

/-- Mutable loop state of `get_epg_data`: the accumulated programs,
`current_ua_index` and `consecutive_403_errors`. -/
structure LoopState where
  programs : List ProgramInfo
  uaIndex : Nat
  c403 : Nat
deriving DecidableEq

/-- Result of the endpoint `for` loop for one window: `ok` is the
`success = True` break, `fail` a raise inside the loop, `exhausted` the
loop ending with `success` still false. -/
inductive EndpointResult where
  | ok (st : LoopState)
  | fail (e : FetchErr)
  | exhausted
deriving DecidableEq

/-- The endpoint `for` loop of `get_epg_data` for one window at
timestamp `ts`, over the remaining endpoint indices. On success the
response is processed and `consecutive_403_errors` resets. On a 403 the
counter increments; on the last endpoint the user-agent index advances
with wrapping and the fetch aborts only once the counter reaches
`numEndpoints * numUserAgents`. A non-403 HTTP error raises at once; a
`URLError` raises only on the last endpoint; undecodable JSON escapes to
the outer handler. -/
def tryEndpoints (oracle : Int → Nat → Nat → GuideResponse)
    (channels : List ChannelInfo) (ts : Int) (st : LoopState) :
    List Nat → EndpointResult
  | [] => .exhausted
  | endpoint_idx :: rest =>
    match oracle ts endpoint_idx st.uaIndex with
    | .success body =>
      match processEpgBody channels st.programs body with
      | .error e => .fail e
      | .ok programs' => .ok { programs := programs', uaIndex := st.uaIndex, c403 := 0 }
    | .httpError code =>
      if code = 403 then
        let c := st.c403 + 1
        if endpoint_idx = numEndpoints - 1 then
          let ua := (st.uaIndex + 1) % numUserAgents
          if numEndpoints * numUserAgents ≤ c then
            .fail .authRejected
          else
            tryEndpoints oracle channels ts { st with uaIndex := ua, c403 := c } rest
        else
          tryEndpoints oracle channels ts { st with c403 := c } rest
      else
        .fail (.httpError code)
    | .urlError =>
      if endpoint_idx = numEndpoints - 1 then .fail .guideUnavailable
      else tryEndpoints oracle channels ts st rest
    | .invalidJson => .fail .invalidJson

/-- The window `while` loop of `get_epg_data`: each window runs the
endpoint loop; a loop ending without success raises the generic
`"Failed to retrieve EPG data from any endpoint"` error; otherwise the
state is carried to the next window and the accumulated programs are
returned at the end. -/
def fetchLoop (oracle : Int → Nat → Nat → GuideResponse)
    (channels : List ChannelInfo) (st : LoopState) :
    List Int → Except FetchErr (List ProgramInfo)
  | [] => .ok st.programs
  | ts :: windows =>
    match tryEndpoints oracle channels ts st (List.range numEndpoints) with
    | .fail e => .error e
    | .exhausted => .error .noEndpoint
    | .ok st' => fetchLoop oracle channels st' windows

/-- The window timestamps visited by `get_epg_data`: `current_time`
starts at `t0` and advances by `hours_increment` hours while below
`t0 + days` days (closed form of the `while` loop; `hours_increment = 0`
would not terminate in the source and yields no windows here). -/
def windowList (t0 : Int) (days hours_increment : Nat) : List Int :=
  if hours_increment = 0 then []
  else
    (List.range ((days * 86400 + hours_increment * 3600 - 1) / (hours_increment * 3600))).map
      (fun k => t0 + k * (hours_increment * 3600))

/-- `HDHomeRunClient.get_epg_data`, with the network supplied as an
oracle keyed by window timestamp, endpoint index and user-agent index:
starts with no programs, user-agent index 0 and a zero 403 counter. -/
def get_epg_data (oracle : Int → Nat → Nat → GuideResponse)
    (channels : List ChannelInfo) (t0 : Int) (days hours_increment : Nat) :
    Except FetchErr (List ProgramInfo) :=
  fetchLoop oracle channels { programs := [], uaIndex := 0, c403 := 0 }
    (windowList t0 days hours_increment)

/-- The deduplication embedded in `get_epg_data` (lines 350-363) as a
standalone pass over a record stream: keep a record unless one with the
same `(start_time, title, guide_number)` was already kept. -/
def dedupGo (acc : List ProgramInfo) : List ProgramInfo → List ProgramInfo
  | [] => acc
  | p :: rest =>
    if isDuplicate acc p then dedupGo acc rest
    else dedupGo (acc ++ [p]) rest

/-- The `ProgramDeduplicator` contract applied to a whole stream. -/
def dedup (l : List ProgramInfo) : List ProgramInfo :=
  dedupGo [] l

/-- The dedup key `(startTime, title, guideNumber)`. -/
def dedupKey (p : ProgramInfo) : Int × String × String :=
  (p.start_time, p.title, p.guide_number)

/-- The token-collection loop of `HDHomeRunClient.discover_all_devices`:
per-host discovery results (in iteration order, `none` for hosts whose
probe failed) are appended when truthy and not already collected. -/
def collectAuths (acc : List String) : List (Option String) → List String
  | [] => acc
  | result :: rest =>
    match result with
    | some device_auth =>
      if device_auth ≠ "" ∧ device_auth ∉ acc then
        collectAuths (acc ++ [device_auth]) rest
      else
        collectAuths acc rest
    | none => collectAuths acc rest

/-- `HDHomeRunClient.discover_all_devices` after host-set construction:
collect per-host tokens, fail when none were found, else concatenate
them into the composite credential. -/
def discover_all_devices (results : List (Option String)) :
    Except Unit (List String × String) :=
  let all_device_auths := collectAuths [] results
  if all_device_auths = [] then .error ()
  else .ok (all_device_auths, String.join all_device_auths)

/-- A concrete timezone conversion used by witnesses: day advances with
the instant. -/
def tzFx : Int → DateTime :=
  fun t => { year := 2024, month := 5, day := (1 + t).toNat,
             hour := 6, minute := 30, second := 15, microsecond := 0, offMin := 0 }

/-- Witness program: first-run with an airdate. -/
def pFxNew : ProgramInfo :=
  { title := "t", start_time := 0, end_time := 1, guide_number := "2",
    first := some true, original_airdate := some 1 }

/-- Witness program: unknown first-run, airdate on a different day. -/
def pFxPrevDiff : ProgramInfo :=
  { title := "t", start_time := 0, end_time := 1, guide_number := "2",
    original_airdate := some 1 }

/-- Witness channel present in the lineup. -/
def chFx : ChannelInfo :=
  { guide_number := "5.1", guide_name := "Ch", url := "u" }

/-- A guide body whose single entry has `StartTime >= EndTime`. -/
def bodyFxBadTimes : List ChannelGuide :=
  [{ GuideNumber := some "5.1",
     Guide := some [{ Title := some "Show", StartTime := some 100, EndTime := some 50 }] }]

/-- Oracle returning `bodyFxBadTimes` on every request. -/
def oracleFxBadTimes : Int → Nat → Nat → GuideResponse :=
  fun _ _ _ => .success bodyFxBadTimes

/-- The record `bodyFxBadTimes` parses into. -/
def progFxBadTimes : ProgramInfo :=
  { title := "Show", start_time := 100, end_time := 50, guide_number := "5.1" }

/-- A guide body with one well-formed entry followed by one entry missing
`StartTime`. -/
def bodyFxMixed : List ChannelGuide :=
  [{ GuideNumber := some "5.1",
     Guide := some [{ Title := some "Good", StartTime := some 10, EndTime := some 20 },
                    { Title := some "Bad", EndTime := some 30 }] }]

/-- Oracle returning `bodyFxMixed` on every request. -/
def oracleFxMixed : Int → Nat → Nat → GuideResponse :=
  fun _ _ _ => .success bodyFxMixed

/-- Oracle rejecting every request with HTTP 403. -/
def oracleFxAll403 : Int → Nat → Nat → GuideResponse :=
  fun _ _ _ => .httpError 403

/-- Oracle failing the first endpoint with HTTP 500 while the second
endpoint would succeed. -/
def oracleFxHttp500 : Int → Nat → Nat → GuideResponse :=
  fun _ endpoint_idx _ => if endpoint_idx = 0 then .httpError 500 else .success []

/-- Oracle failing every request with a non-HTTP transport error. -/
def oracleFxUrlErr : Int → Nat → Nat → GuideResponse :=
  fun _ _ _ => .urlError

/-- Two records sharing the dedup key but differing in synopsis. -/
def rFx1 : ProgramInfo :=
  { title := "A", start_time := 0, end_time := 1, guide_number := "2", synopsis := some "x" }

/-- Second record with the same dedup key as `rFx1`. -/
def rFx2 : ProgramInfo :=
  { title := "A", start_time := 0, end_time := 1, guide_number := "2", synopsis := some "y" }

/-- Discovery results where two hosts return the identical token. -/
def resultsFx : List (Option String) :=
  [some "AUTHX", some "AUTHX", none, some "AUTHY"]

theorem foldl_children_append {α : Type} (f : α → XmlElem) (l : List α) (r : XmlRoot) :
    (l.foldl (fun r x => { r with children := r.children ++ [f x] }) r)
      = { r with children := r.children ++ l.map f } := by
  induction l generalizing r with
  | nil => simp
  | cons x xs ih => simp [List.foldl_cons, ih]

/-- C9: in every document produced by convert_to_xmltv, all channel
elements precede all programme elements as children of the root, channel
elements appear in input channel-list order and programme elements in
input program-list order. -/
theorem c9_document_order :
    ∀ (cleanText : String → String) (toTz : Int → DateTime)
      (channels : List ChannelInfo) (programs : List ProgramInfo)
      (generator_name generator_url : String),
      (convert_to_xmltv cleanText toTz channels programs generator_name generator_url).children
        = channels.map _add_channel ++ programs.map (_add_program cleanText toTz)
      ∧ (∀ ch, (_add_channel ch).tag = "channel")
      ∧ (∀ p, (_add_program cleanText toTz p).tag = "programme") := by
  intro cleanText toTz channels programs generator_name generator_url
  refine ⟨?_, fun ch => rfl, fun p => rfl⟩
  simp [convert_to_xmltv, foldl_children_append]

/-- C10: a lineup channel object missing GuideNumber, GuideName, URL or
ImageURL never fails the fetch; the parsed channel substitutes "" /
"Unknown" / "" / absent, and only the network-error and invalid-JSON
paths raise the lineup failure. -/
theorem c10_lineup_missing_fields_defaulted :
    (∀ entries : List LineupEntry,
        get_channels (.ok entries) = .ok (entries.map parseChannelEntry))
    ∧ (∀ cd : LineupEntry,
        cd.GuideNumber = none → cd.GuideName = none → cd.URL = none → cd.ImageURL = none →
        parseChannelEntry cd =
          { guide_number := "", guide_name := "Unknown", url := "", image_url := none })
    ∧ (∀ (r : Except LineupErr (List LineupEntry)) (e : LineupErr),
        get_channels r = .error e ↔ r = .error e) := by
  refine ⟨fun entries => rfl, ?_, ?_⟩
  · intro cd h1 h2 h3 h4
    simp [parseChannelEntry, h1, h2, h3, h4]
  · intro r e
    cases r with
    | ok data => simp [get_channels]
    | error e' => simp [get_channels]

theorem c10_witness :
    parseChannelEntry { GuideNumber := none, GuideName := none, URL := none, ImageURL := none }
      = { guide_number := "", guide_name := "Unknown", url := "", image_url := none } :=
  c10_lineup_missing_fields_defaulted.2.1
    { GuideNumber := none, GuideName := none, URL := none, ImageURL := none } rfl rfl rfl rfl

/-- C2: the encoder emits at most one repeat/new status element per
program, following the decision table: first-run true gives a bare
"new"; otherwise with an airdate the midnight-truncated dates in the
target timezone are compared — differing dates give "previously-shown"
carrying the airdate's full offset-free timestamp, equal dates give a
bare "previously-shown" only when first-run is known false; without an
airdate a known-false first-run gives a bare "previously-shown" and
anything else gives nothing. -/
theorem c2_episode_status_table :
    ∀ (toTz : Int → DateTime) (p : ProgramInfo),
      (_add_episode_status toTz p).length ≤ 1
      ∧ (p.first = some true →
          _add_episode_status toTz p = [{ tag := "new", attrs := [] }])
      ∧ (∀ ad, p.first ≠ some true → p.original_airdate = some ad →
          truncMidnight (toTz ad) ≠ truncMidnight (toTz p.start_time) →
          _add_episode_status toTz p =
            [{ tag := "previously-shown", attrs := [("start", strftime14 (toTz ad))] }])
      ∧ (∀ ad, p.first = some false → p.original_airdate = some ad →
          truncMidnight (toTz ad) = truncMidnight (toTz p.start_time) →
          _add_episode_status toTz p = [{ tag := "previously-shown", attrs := [] }])
      ∧ (∀ ad, p.first = none → p.original_airdate = some ad →
          truncMidnight (toTz ad) = truncMidnight (toTz p.start_time) →
          _add_episode_status toTz p = [])
      ∧ (p.first = some false → p.original_airdate = none →
          _add_episode_status toTz p = [{ tag := "previously-shown", attrs := [] }])
      ∧ (p.first = none → p.original_airdate = none →
          _add_episode_status toTz p = []) := by
  intro toTz p
  refine ⟨?_, ?_, ?_, ?_, ?_, ?_, ?_⟩
  · by_cases hf : p.first = some true
    · simp [_add_episode_status, hf]
    · cases ha : p.original_airdate with
      | none => simp [_add_episode_status, hf, ha]; split <;> simp
      | some ad =>
        simp [_add_episode_status, hf, ha]
        split <;> first
          | simp
          | (split <;> simp)
  · intro hf; simp [_add_episode_status, hf]
  · intro ad hf ha hne
    simp [_add_episode_status, hf, ha, hne]
  · intro ad hf ha heq
    simp [_add_episode_status, hf, ha, heq]
  · intro ad hf ha heq
    simp [_add_episode_status, hf, ha, heq]
  · intro hf ha; simp [_add_episode_status, hf, ha]
  · intro hf ha; simp [_add_episode_status, hf, ha]

theorem c2_witness :
    _add_episode_status tzFx pFxNew = [{ tag := "new", attrs := [] }]
    ∧ _add_episode_status tzFx pFxPrevDiff =
        [{ tag := "previously-shown", attrs := [("start", "20240502063015")] }] := by
  constructor
  · exact (c2_episode_status_table tzFx pFxNew).2.1 rfl
  · have h := (c2_episode_status_table tzFx pFxPrevDiff).2.2.1 1 (by decide) rfl (by decide)
    simpa using h

theorem mem_collectAuths (results : List (Option String)) :
    ∀ (acc : List String) (a : String),
      a ∈ collectAuths acc results ↔ a ∈ acc ∨ (some a ∈ results ∧ a ≠ "") := by
  induction results with
  | nil => intro acc a; simp [collectAuths]
  | cons r rest ih =>
    intro acc a
    cases r with
    | none => simp [collectAuths, ih]
    | some d =>
      by_cases hc : d ≠ "" ∧ d ∉ acc
      · simp only [collectAuths, if_pos hc, ih, List.mem_append, List.mem_singleton,
          List.mem_cons, Option.some.injEq, List.not_mem_nil, or_false]
        constructor
        · rintro ((h | rfl) | ⟨hm, hne⟩)
          · exact Or.inl h
          · exact Or.inr ⟨Or.inl rfl, hc.1⟩
          · exact Or.inr ⟨Or.inr hm, hne⟩
        · rintro (h | ⟨(rfl | hm), hne⟩)
          · exact Or.inl (Or.inl h)
          · exact Or.inl (Or.inr rfl)
          · exact Or.inr ⟨hm, hne⟩
      · simp only [collectAuths, if_neg hc, ih, List.mem_cons, Option.some.injEq]
        push_neg at hc
        constructor
        · rintro (h | ⟨hm, hne⟩)
          · exact Or.inl h
          · exact Or.inr ⟨Or.inr hm, hne⟩
        · rintro (h | ⟨(rfl | hm), hne⟩)
          · exact Or.inl h
          · exact Or.inl (hc hne)
          · exact Or.inr ⟨hm, hne⟩

theorem nodup_collectAuths (results : List (Option String)) :
    ∀ acc : List String, acc.Nodup → (collectAuths acc results).Nodup := by
  induction results with
  | nil => intro acc h; simpa [collectAuths] using h
  | cons r rest ih =>
    intro acc h
    cases r with
    | none => simpa [collectAuths] using ih acc h
    | some d =>
      by_cases hc : d ≠ "" ∧ d ∉ acc
      · simp only [collectAuths, if_pos hc]
        refine ih (acc ++ [d]) ?_
        simp [List.nodup_append, h, hc.2]
      · simpa [collectAuths, if_neg hc] using ih acc h

/-- C8: when two or more hosts return the identical authentication
token, the composite credential contains that token exactly once; the
collected token list is duplicate-free (dedup by value, not by host) and
the credential is its concatenation in collection order. -/
theorem c8_token_dedup :
    ∀ (results : List (Option String)) (t : String),
      some t ∈ results → t ≠ "" →
      List.count t (collectAuths [] results) = 1
      ∧ (collectAuths [] results).Nodup
      ∧ discover_all_devices results =
          .ok (collectAuths [] results, String.join (collectAuths [] results)) := by
  intro results t hmem hne
  have hnd : (collectAuths [] results).Nodup := nodup_collectAuths results [] (by simp)
  have hin : t ∈ collectAuths [] results := by
    rw [mem_collectAuths]
    exact Or.inr ⟨hmem, hne⟩
  refine ⟨List.count_eq_one_of_mem hnd hin, hnd, ?_⟩
  have hnil : collectAuths [] results ≠ [] := by
    intro h; rw [h] at hin; simp at hin
  simp [discover_all_devices, hnil]

theorem c8_witness :
    List.count "AUTHX" (collectAuths [] resultsFx) = 1
    ∧ discover_all_devices resultsFx = .ok (["AUTHX", "AUTHY"], "AUTHXAUTHY") := by
  have h := c8_token_dedup resultsFx "AUTHX" (by decide) (by decide)
  refine ⟨h.1, ?_⟩
  have h3 := h.2.2
  have : collectAuths [] resultsFx = ["AUTHX", "AUTHY"] := by decide
  rw [this] at h3
  simpa using h3

/-- C4 counterexample: a guide entry with `StartTime = 100` and
`EndTime = 50` is not rejected — the fetch output is exactly that
record, whose start time is not below its end time. -/
theorem c4_counterexample :
    fetchLoop oracleFxBadTimes [chFx] { programs := [], uaIndex := 0, c403 := 0 } [0]
        = .ok [progFxBadTimes]
    ∧ progFxBadTimes.end_time ≤ progFxBadTimes.start_time := by
  exact ⟨rfl, by decide⟩

/-- C4 (amended): `_parse_program_data` performs no ordering check
between start and end: an entry with `StartTime >= EndTime` still
parses into a ProgramRecord carrying those times. -/
theorem c4_no_ordering_check :
    ∀ (program_data : GuideEntry) (guide_number : String) (s t : Int),
      program_data.StartTime = some s → program_data.EndTime = some t → t ≤ s →
      ∃ p, _parse_program_data program_data guide_number = .ok p
        ∧ p.start_time = s ∧ p.end_time = t := by
  intro program_data guide_number s t hs ht _
  refine ⟨{ title := program_data.Title.getD "", start_time := s, end_time := t,
            guide_number := guide_number, synopsis := program_data.Synopsis,
            episode_title := program_data.EpisodeTitle,
            episode_number := program_data.EpisodeNumber,
            image_url := program_data.ImageURL,
            original_airdate := program_data.OriginalAirdate,
            filters := program_data.Filter.getD [], first := program_data.First },
          ?_, rfl, rfl⟩
  simp [_parse_program_data, hs, ht]

theorem c4_witness :
    ∃ p, _parse_program_data
        { Title := some "Show", StartTime := some 100, EndTime := some 50 } "5.1" = .ok p
      ∧ p.start_time = 100 ∧ p.end_time = 50 :=
  c4_no_ordering_check
    { Title := some "Show", StartTime := some 100, EndTime := some 50 } "5.1"
    100 50 rfl rfl (by decide)

/-- C6 counterexample: an HTTP 500 on the first (non-last) endpoint
aborts the whole fetch even though the second endpoint would have
succeeded, contradicting the claimed fall-through for every
non-authorization transport error. -/
theorem c6_counterexample :
    fetchLoop oracleFxHttp500 [] { programs := [], uaIndex := 0, c403 := 0 } [0]
        = .error (.httpError 500)
    ∧ oracleFxHttp500 0 1 0 = .success [] :=
  ⟨rfl, rfl⟩

/-- C6 (amended): a non-HTTP transport error (`URLError`) on the last
endpoint aborts the fetch with the guide-unavailable failure and on a
non-last endpoint falls through to the next endpoint; a non-403 HTTP
error aborts the fetch immediately regardless of endpoint position. -/
theorem c6_transport_error_policy :
    ∀ (oracle : Int → Nat → Nat → GuideResponse) (channels : List ChannelInfo)
      (ts : Int) (st : LoopState),
      (∀ endpoint_idx rest, oracle ts endpoint_idx st.uaIndex = .urlError →
          endpoint_idx ≠ numEndpoints - 1 →
          tryEndpoints oracle channels ts st (endpoint_idx :: rest)
            = tryEndpoints oracle channels ts st rest)
      ∧ (∀ endpoint_idx rest, oracle ts endpoint_idx st.uaIndex = .urlError →
          endpoint_idx = numEndpoints - 1 →
          tryEndpoints oracle channels ts st (endpoint_idx :: rest)
            = .fail .guideUnavailable)
      ∧ (∀ endpoint_idx rest code, oracle ts endpoint_idx st.uaIndex = .httpError code →
          code ≠ 403 →
          tryEndpoints oracle channels ts st (endpoint_idx :: rest)
            = .fail (.httpError code)) := by
  intro oracle channels ts st
  refine ⟨?_, ?_, ?_⟩
  · intro endpoint_idx rest h hne
    simp [tryEndpoints, h, hne]
  · intro endpoint_idx rest h heq
    subst heq
    simp [tryEndpoints, h]
  · intro endpoint_idx rest code h hne
    simp [tryEndpoints, h, hne]

theorem c6_witness :
    tryEndpoints oracleFxUrlErr [] 0 { programs := [], uaIndex := 0, c403 := 0 } [1]
        = .fail .guideUnavailable
    ∧ tryEndpoints oracleFxUrlErr [] 0 { programs := [], uaIndex := 0, c403 := 0 } [0, 1]
        = tryEndpoints oracleFxUrlErr [] 0 { programs := [], uaIndex := 0, c403 := 0 } [1] :=
  ⟨(c6_transport_error_policy oracleFxUrlErr [] 0
      { programs := [], uaIndex := 0, c403 := 0 }).2.1 1 [] rfl rfl,
   (c6_transport_error_policy oracleFxUrlErr [] 0
      { programs := [], uaIndex := 0, c403 := 0 }).1 0 [1] rfl (by decide)⟩

/-- C7 counterexample: a response whose second entry lacks `StartTime`
makes the whole fetch raise the wrapped `KeyError`; the well-formed
first entry is not returned, contradicting the claimed per-entry
skip-and-continue behavior. -/
theorem c7_counterexample :
    fetchLoop oracleFxMixed [chFx] { programs := [], uaIndex := 0, c403 := 0 } [0]
      = .error (.keyError "StartTime") :=
  rfl

/-- C7 (amended): a parse problem in a single program entry (a missing
`StartTime` or `EndTime`) is fatal to the whole fetch: the `KeyError`
escapes the entry loop instead of skipping the entry; entries missing
only optional fields are degraded with defaults instead. -/
theorem c7_entry_parse_fatal :
    (∀ (program_data : GuideEntry) (guide_number : String),
        program_data.StartTime = none →
        _parse_program_data program_data guide_number = .error (.keyError "StartTime"))
    ∧ (∀ (programs : List ProgramInfo) (guide_number : String) (entries : List GuideEntry),
        (∃ e ∈ entries, e.StartTime = none ∨ e.EndTime = none) →
        ∃ err, addGuidePrograms programs guide_number entries = .error err)
    ∧ (∀ (program_data : GuideEntry) (guide_number : String) (s t : Int),
        program_data.StartTime = some s → program_data.EndTime = some t →
        _parse_program_data program_data guide_number =
          .ok { title := program_data.Title.getD ""
                start_time := s
                end_time := t
                guide_number := guide_number
                synopsis := program_data.Synopsis
                episode_title := program_data.EpisodeTitle
                episode_number := program_data.EpisodeNumber
                image_url := program_data.ImageURL
                original_airdate := program_data.OriginalAirdate
                filters := program_data.Filter.getD []
                first := program_data.First }) := by
  refine ⟨?_, ?_, ?_⟩
  · intro program_data guide_number h
    simp [_parse_program_data, h]
  · intro programs guide_number entries hbad
    induction entries generalizing programs with
    | nil => simp at hbad
    | cons e rest ih =>
      rcases hbad with ⟨e', he', hbad'⟩
      rcases List.mem_cons.mp he' with rfl | hmem
      · rcases hbad' with hs | ht
        · exact ⟨.keyError "StartTime", by simp [addGuidePrograms, _parse_program_data, hs]⟩
        · cases hs : e'.StartTime with
          | none => exact ⟨.keyError "StartTime",
              by simp [addGuidePrograms, _parse_program_data, hs]⟩
          | some s => exact ⟨.keyError "EndTime",
              by simp [addGuidePrograms, _parse_program_data, hs, ht]⟩
      · cases hp : _parse_program_data e guide_number with
        | error err => exact ⟨err, by simp [addGuidePrograms, hp]⟩
        | ok program =>
          by_cases hd : isDuplicate programs program
          · rcases ih programs ⟨e', hmem, hbad'⟩ with ⟨err, herr⟩
            exact ⟨err, by simp [addGuidePrograms, hp, hd, herr]⟩
          · rcases ih (programs ++ [program]) ⟨e', hmem, hbad'⟩ with ⟨err, herr⟩
            exact ⟨err, by simp [addGuidePrograms, hp, hd, herr]⟩
  · intro program_data guide_number s t hs ht
    simp [_parse_program_data, hs, ht]

theorem c7_witness :
    ∃ err, addGuidePrograms [] "5.1"
        [{ Title := some "Good", StartTime := some 10, EndTime := some 20 },
         { Title := some "Bad", EndTime := some 30 }] = .error err :=
  c7_entry_parse_fatal.2.1 [] "5.1"
    [{ Title := some "Good", StartTime := some 10, EndTime := some 20 },
     { Title := some "Bad", EndTime := some 30 }]
    ⟨{ Title := some "Bad", EndTime := some 30 }, by decide, Or.inl rfl⟩

theorem parse_error_keyError (program_data : GuideEntry) (guide_number : String)
    (e : FetchErr) :
    _parse_program_data program_data guide_number = .error e →
    ∃ f, e = FetchErr.keyError f := by
  intro h
  rw [_parse_program_data] at h
  split at h
  · exact ⟨"StartTime", by injection h with h'; rw [← h']⟩
  · split at h
    · exact ⟨"EndTime", by injection h with h'; rw [← h']⟩
    · cases h

theorem addGuidePrograms_error_keyError
    (entries : List GuideEntry) :
    ∀ (programs : List ProgramInfo) (guide_number : String) (e : FetchErr),
      addGuidePrograms programs guide_number entries = .error e →
      ∃ f, e = FetchErr.keyError f := by
  induction entries with
  | nil => intro programs guide_number e h; simp [addGuidePrograms] at h
  | cons program_data rest ih =>
    intro programs guide_number e h
    rw [addGuidePrograms] at h
    split at h
    · rename_i err heq
      injection h with h'
      obtain ⟨f, rfl⟩ := parse_error_keyError _ _ _ heq
      exact ⟨f, h'.symm⟩
    · split at h
      · exact ih _ _ _ h
      · exact ih _ _ _ h

theorem processEpgBody_error_keyError
    (body : List ChannelGuide) :
    ∀ (channels : List ChannelInfo) (programs : List ProgramInfo) (e : FetchErr),
      processEpgBody channels programs body = .error e →
      ∃ f, e = FetchErr.keyError f := by
  induction body with
  | nil => intro channels programs e h; simp [processEpgBody] at h
  | cons channel_data rest ih =>
    intro channels programs e h
    rw [processEpgBody] at h
    split at h
    · split at h
      · rename_i err heq
        injection h with h'
        obtain ⟨f, rfl⟩ := addGuidePrograms_error_keyError _ _ _ _ heq
        exact ⟨f, h'.symm⟩
      · exact ih _ _ _ h
    · exact ih _ _ _ h

theorem tryEndpoints_ok_c403
    (oracle : Int → Nat → Nat → GuideResponse) (channels : List ChannelInfo) (ts : Int) :
    ∀ (idxs : List Nat) (st st' : LoopState),
      tryEndpoints oracle channels ts st idxs = .ok st' → st'.c403 = 0 := by
  intro idxs
  induction idxs with
  | nil => intro st st' h; simp [tryEndpoints] at h
  | cons endpoint_idx rest ih =>
    intro st st' h
    simp only [tryEndpoints] at h
    split at h
    · split at h
      · cases h
      · injection h with h'; rw [← h']
    · split at h
      · split at h
        · split at h
          · cases h
          · exact ih _ _ h
        · exact ih _ _ h
      · cases h
    · split at h
      · cases h
      · exact ih _ _ h
    · cases h

theorem tryEndpoints_not_authRejected
    (oracle : Int → Nat → Nat → GuideResponse) (channels : List ChannelInfo) (ts : Int) :
    ∀ (idxs : List Nat) (st : LoopState),
      st.c403 + idxs.length < numEndpoints * numUserAgents →
      tryEndpoints oracle channels ts st idxs ≠ .fail .authRejected := by
  intro idxs
  induction idxs with
  | nil => intro st _ h; simp [tryEndpoints] at h
  | cons endpoint_idx rest ih =>
    intro st hbound h
    have h8 : numEndpoints * numUserAgents = 8 := rfl
    rw [h8] at hbound
    simp only [List.length_cons] at hbound
    simp only [tryEndpoints] at h
    split at h
    · split at h
      · rename_i err heq
        obtain ⟨f, hf⟩ := processEpgBody_error_keyError _ _ _ _ heq
        rw [hf] at h
        injection h with h'
        cases h'
      · cases h
    · split at h
      · split at h
        · split at h
          · rename_i hth
            rw [h8] at hth
            omega
          · refine ih _ ?_ h
            show st.c403 + 1 + rest.length < numEndpoints * numUserAgents
            rw [h8]
            omega
        · refine ih _ ?_ h
          show st.c403 + 1 + rest.length < numEndpoints * numUserAgents
          rw [h8]
          omega
      · injection h with h'
        cases h'
    · split at h
      · injection h with h'
        cases h'
      · refine ih _ ?_ h
        rw [h8]
        omega
    · injection h with h'
      cases h'

/-- C1: the claimed behavior fails on the code. First, in a window where
every (endpoint, identity) combination returns HTTP 403, the fetch
aborts with the generic post-loop error (`"Failed to retrieve EPG data
from any endpoint"`), not the 403-specific exhaustion error, after
trying only the two endpoints under the current identity. Second, the
403-specific `authRejected` abort is unreachable for every oracle,
because each window starts with a zero consecutive-403 counter and can
accumulate at most `numEndpoints` rejections before the generic abort
fires. -/
theorem c1_auth_exhaustion_unreachable :
    (∀ (oracle : Int → Nat → Nat → GuideResponse) (channels : List ChannelInfo)
        (ts : Int) (windows : List Int) (programs : List ProgramInfo) (ua : Nat),
        (∀ endpoint_idx uaIdx, oracle ts endpoint_idx uaIdx = .httpError 403) →
        fetchLoop oracle channels { programs := programs, uaIndex := ua, c403 := 0 }
            (ts :: windows)
          = .error .noEndpoint)
    ∧ (∀ (oracle : Int → Nat → Nat → GuideResponse) (channels : List ChannelInfo)
        (st : LoopState) (windows : List Int), st.c403 = 0 →
        fetchLoop oracle channels st windows ≠ .error .authRejected) := by
  constructor
  · intro oracle channels ts windows programs ua h
    have h0 := h 0 ua
    have h1 := h 1 ua
    have hA : tryEndpoints oracle channels ts
        { programs := programs, uaIndex := ua, c403 := 0 } (List.range numEndpoints)
        = .exhausted := by
      have hr : List.range numEndpoints = [0, 1] := rfl
      rw [hr]
      simp [tryEndpoints, h0, h1, numEndpoints, numUserAgents]
    simp [fetchLoop, hA]
  · intro oracle channels st windows
    induction windows generalizing st with
    | nil => intro _ h; simp [fetchLoop] at h
    | cons ts rest ih =>
      intro hz h
      rw [fetchLoop] at h
      split at h
      · rename_i e heq
        injection h with h'
        rw [h'] at heq
        exact tryEndpoints_not_authRejected oracle channels ts _ st
          (by rw [hz]; decide) heq
      · injection h with h'
        cases h'
      · rename_i st' heq
        exact ih st' (tryEndpoints_ok_c403 oracle channels ts _ st st' heq) h

theorem c1_witness :
    fetchLoop oracleFxAll403 [] { programs := [], uaIndex := 0, c403 := 0 } [0]
        = .error .noEndpoint
    ∧ fetchLoop oracleFxAll403 [] { programs := [], uaIndex := 0, c403 := 0 } [0]
        ≠ .error .authRejected :=
  ⟨c1_auth_exhaustion_unreachable.1 oracleFxAll403 [] 0 [] [] 0 (fun _ _ => rfl),
   c1_auth_exhaustion_unreachable.2 oracleFxAll403 []
     { programs := [], uaIndex := 0, c403 := 0 } [0] rfl⟩

theorem isDuplicate_iff (acc : List ProgramInfo) (p : ProgramInfo) :
    isDuplicate acc p = true ↔ ∃ q ∈ acc, dedupKey q = dedupKey p := by
  simp [isDuplicate, List.any_eq_true, dedupKey, Prod.ext_iff, and_assoc]

theorem key_mem_dedupGo (l : List ProgramInfo) :
    ∀ (acc : List ProgramInfo) (k : Int × String × String),
      (∃ p ∈ dedupGo acc l, dedupKey p = k)
        ↔ (∃ p ∈ acc, dedupKey p = k) ∨ (∃ p ∈ l, dedupKey p = k) := by
  induction l with
  | nil => intro acc k; simp [dedupGo]
  | cons p rest ih =>
    intro acc k
    by_cases hd : isDuplicate acc p
    · rw [dedupGo, if_pos hd, ih]
      constructor
      · rintro (h | ⟨q, hq, hk⟩)
        · exact Or.inl h
        · exact Or.inr ⟨q, List.mem_cons_of_mem _ hq, hk⟩
      · rintro (h | ⟨q, hq, hk⟩)
        · exact Or.inl h
        · rcases List.mem_cons.mp hq with rfl | hq'
          · obtain ⟨q', hq', hk'⟩ := (isDuplicate_iff acc q).mp hd
            exact Or.inl ⟨q', hq', hk'.trans hk⟩
          · exact Or.inr ⟨q, hq', hk⟩
    · rw [dedupGo, if_neg hd, ih]
      constructor
      · rintro (⟨q, hq, hk⟩ | ⟨q, hq, hk⟩)
        · rcases List.mem_append.mp hq with hq' | hq'
          · exact Or.inl ⟨q, hq', hk⟩
          · rcases List.mem_singleton.mp hq' with rfl
            exact Or.inr ⟨q, List.mem_cons_self _ _, hk⟩
        · exact Or.inr ⟨q, List.mem_cons_of_mem _ hq, hk⟩
      · rintro (⟨q, hq, hk⟩ | ⟨q, hq, hk⟩)
        · exact Or.inl ⟨q, List.mem_append_left _ hq, hk⟩
        · rcases List.mem_cons.mp hq with rfl | hq'
          · exact Or.inl ⟨q, List.mem_append_right _ (List.mem_singleton_self q), hk⟩
          · exact Or.inr ⟨q, hq', hk⟩

theorem dedupGo_pairwise (l : List ProgramInfo) :
    ∀ acc : List ProgramInfo,
      acc.Pairwise (fun a b => dedupKey a ≠ dedupKey b) →
      (dedupGo acc l).Pairwise (fun a b => dedupKey a ≠ dedupKey b) := by
  induction l with
  | nil => intro acc h; simpa [dedupGo] using h
  | cons p rest ih =>
    intro acc h
    by_cases hd : isDuplicate acc p
    · rw [dedupGo, if_pos hd]
      exact ih acc h
    · rw [dedupGo, if_neg hd]
      refine ih _ ?_
      rw [List.pairwise_append]
      refine ⟨h, by simp, ?_⟩
      intro a ha b hb
      rcases List.mem_singleton.mp hb with rfl
      intro hk
      exact hd ((isDuplicate_iff acc b).mpr ⟨a, ha, hk⟩)

theorem dedupGo_eq_of_pairwise (l : List ProgramInfo) :
    ∀ acc : List ProgramInfo,
      (acc ++ l).Pairwise (fun a b => dedupKey a ≠ dedupKey b) →
      dedupGo acc l = acc ++ l := by
  induction l with
  | nil => intro acc _; simp [dedupGo]
  | cons p rest ih =>
    intro acc h
    have hnd : ¬ isDuplicate acc p = true := by
      intro hdup
      obtain ⟨q, hq, hk⟩ := (isDuplicate_iff acc p).mp hdup
      rw [List.pairwise_append] at h
      exact h.2.2 q hq p (List.mem_cons_self _ _) hk
    rw [dedupGo, if_neg hnd]
    have h' : ((acc ++ [p]) ++ rest).Pairwise (fun a b => dedupKey a ≠ dedupKey b) := by
      rw [List.append_assoc]
      simpa using h
    rw [ih (acc ++ [p]) h', List.append_assoc]
    rfl

/-- C5 counterexample: two records sharing the dedup key but differing
in synopsis — a transposition of the input changes which representative
dedup keeps, so the result is not invariant under reordering. -/
theorem c5_counterexample :
    [rFx1, rFx2].Perm [rFx2, rFx1] ∧ dedup [rFx1, rFx2] ≠ dedup [rFx2, rFx1] :=
  ⟨List.Perm.swap rFx2 rFx1 [], by decide⟩

/-- C5 (amended): dedup is idempotent, and under any reordering of the
input the set of dedup keys of the result is invariant; the kept
representative for a key is the first encountered, so the records
themselves may differ across orderings. -/
theorem c5_dedup_idempotent_key_invariant :
    (∀ l : List ProgramInfo, dedup (dedup l) = dedup l)
    ∧ (∀ (l l' : List ProgramInfo), l.Perm l' →
        ∀ k, (∃ p ∈ dedup l, dedupKey p = k) ↔ (∃ p ∈ dedup l', dedupKey p = k)) := by
  constructor
  · intro l
    have hp : (([] : List ProgramInfo) ++ dedup l).Pairwise
        (fun a b => dedupKey a ≠ dedupKey b) := by
      simpa using dedupGo_pairwise l [] (by simp)
    simpa [dedup] using dedupGo_eq_of_pairwise (dedup l) [] hp
  · intro l l' hperm k
    rw [dedup, key_mem_dedupGo, dedup, key_mem_dedupGo]
    simp only [List.not_mem_nil, false_and, exists_false, false_or, exists_and_left]
    constructor
    · rintro ⟨p, hp, hk⟩
      exact ⟨p, hperm.mem_iff.mp hp, hk⟩
    · rintro ⟨p, hp, hk⟩
      exact ⟨p, hperm.mem_iff.mpr hp, hk⟩

theorem c5_witness :
    dedup (dedup [rFx1, rFx2]) = dedup [rFx1, rFx2]
    ∧ ((∃ p ∈ dedup [rFx1, rFx2], dedupKey p = dedupKey rFx1)
        ↔ (∃ p ∈ dedup [rFx2, rFx1], dedupKey p = dedupKey rFx1)) :=
  ⟨c5_dedup_idempotent_key_invariant.1 [rFx1, rFx2],
   c5_dedup_idempotent_key_invariant.2 [rFx1, rFx2] [rFx2, rFx1]
     (List.Perm.swap rFx2 rFx1 []) (dedupKey rFx1)⟩

theorem isDigit_ne_E {c : Char} (h : c.isDigit = true) : c ≠ 'E' := by
  intro hc
  subst hc
  exact absurd h (by decide)

theorem isDigit_not_space {c : Char} (h : c.isDigit = true) : pyIsSpace c = false := by
  cases hc : pyIsSpace c
  · rfl
  · exfalso
    simp only [pyIsSpace, Bool.or_eq_true, beq_iff_eq] at hc
    rcases hc with ((((rfl | rfl) | rfl) | rfl) | rfl) | rfl <;> exact absurd h (by decide)

theorem idxOfChar_E_append (ds es : List Char) (hds : ∀ c ∈ ds, c.isDigit = true) :
    idxOfChar 'E' (ds ++ 'E' :: es) = ds.length := by
  induction ds with
  | nil => simp [idxOfChar]
  | cons c cs ih =>
    have hc : c ≠ 'E' := isDigit_ne_E (hds c (by simp))
    simp [idxOfChar, hc, ih (fun c' hc' => hds c' (by simp [hc']))]

theorem take_len_append (l r : List Char) : (l ++ r).take l.length = l := by
  induction l with
  | nil => rfl
  | cons c cs ih => simp [ih]

theorem pySlice_digits (ds es : List Char) :
    pySlice ('S' :: ds ++ 'E' :: es) 1 (ds.length + 1) = ds := by
  have h1 : ('S' :: ds ++ 'E' :: es).take (ds.length + 1)
      = 'S' :: (ds ++ 'E' :: es).take ds.length := rfl
  have h2 : (ds ++ 'E' :: es).take ds.length = ds := take_len_append ds ('E' :: es)
  rw [pySlice, h1, h2]
  rfl

theorem drop_digits (ds es : List Char) :
    ('S' :: ds ++ 'E' :: es).drop (ds.length + 1 + 1) = es := by
  have h1 : ('S' :: ds ++ 'E' :: es).drop (ds.length + 1 + 1)
      = (ds ++ 'E' :: es).drop (ds.length + 1) := rfl
  have h2 : (ds ++ 'E' :: es).drop (ds.length + 1) = ('E' :: es).drop 1 := by
    induction ds with
    | nil => rfl
    | cons c cs ih => simp [ih]
  rw [h1, h2]
  rfl

theorem dropWhile_not_space (l : List Char) (h : ∀ c ∈ l, pyIsSpace c = false) :
    l.dropWhile pyIsSpace = l := by
  cases l with
  | nil => rfl
  | cons c cs => simp [List.dropWhile_cons, h c (by simp)]

theorem pyStrip_digits (l : List Char) (h : ∀ c ∈ l, c.isDigit = true) :
    pyStrip l = l := by
  have h1 : ∀ c ∈ l, pyIsSpace c = false := fun c hc => isDigit_not_space (h c hc)
  have h2 : ∀ c ∈ l.reverse, pyIsSpace c = false := fun c hc =>
    h1 c (List.mem_reverse.mp hc)
  rw [pyStrip, dropWhile_not_space l h1, dropWhile_not_space l.reverse h2,
    List.reverse_reverse]

theorem pyInt_digits (l : List Char) (hne : l ≠ []) (h : ∀ c ∈ l, c.isDigit = true) :
    pyInt l = some (Int.ofNat (digitsToNat l)) := by
  have hs : pyStrip l = l := pyStrip_digits l h
  cases l with
  | nil => exact absurd rfl hne
  | cons c cs =>
    have hplus : c ≠ '+' := by
      intro hc
      subst hc
      exact absurd (h '+' (by simp)) (by decide)
    have hminus : c ≠ '-' := by
      intro hc
      subst hc
      exact absurd (h '-' (by simp)) (by decide)
    have hall : (c :: cs).all Char.isDigit = true := List.all_eq_true.mpr h
    rw [pyInt, hs]
    dsimp only
    rw [if_neg hplus, if_neg hminus, digitsOnly, if_pos ⟨List.cons_ne_nil c cs, hall⟩]
    rfl

/-- C3: a non-empty episode-number string always yields the raw string
verbatim as the first, onscreen episode-num element; every
`S<digits>E<digits>` form whose season and episode values are at least 1
additionally yields an `xmltv_ns` element with text
`{season-1}.{episode-1}.0/0`; a string matching the S/E containment
pattern whose digit parse fails yields only the onscreen element
together with a recorded warning, never a raised failure. -/
theorem c3_episode_numbering :
    (∀ l : List Char, ∃ rest w, _add_episode_numbering l =
        ({ tag := "episode-num", attrs := [("system", "onscreen")],
           text := some (String.mk l) } :: rest, w))
    ∧ (∀ ds es : List Char, ds ≠ [] → es ≠ [] →
        (∀ c ∈ ds, c.isDigit = true) → (∀ c ∈ es, c.isDigit = true) →
        1 ≤ digitsToNat ds → 1 ≤ digitsToNat es →
        _add_episode_numbering ('S' :: ds ++ 'E' :: es) =
          ([{ tag := "episode-num", attrs := [("system", "onscreen")],
              text := some (String.mk ('S' :: ds ++ 'E' :: es)) },
            { tag := "episode-num", attrs := [("system", "xmltv_ns")],
              text := some (toString (digitsToNat ds - 1) ++ "." ++
                toString (digitsToNat es - 1) ++ ".0/0") }],
           false))
    ∧ (∀ l : List Char, 'S' ∈ l → 'E' ∈ l →
        (pyInt (pySlice l (idxOfChar 'S' l + 1) (idxOfChar 'E' l)) = none ∨
         pyInt (l.drop (idxOfChar 'E' l + 1)) = none) →
        _add_episode_numbering l =
          ([{ tag := "episode-num", attrs := [("system", "onscreen")],
              text := some (String.mk l) }], true)) := by
  refine ⟨?_, ?_, ?_⟩
  · intro l
    simp only [_add_episode_numbering]
    by_cases hc : 'S' ∈ l ∧ 'E' ∈ l
    · rw [if_pos hc]
      cases h1 : pyInt (pySlice l (idxOfChar 'S' l + 1) (idxOfChar 'E' l)) with
      | none => exact ⟨_, _, rfl⟩
      | some sv =>
        cases h2 : pyInt (l.drop (idxOfChar 'E' l + 1)) with
        | none => exact ⟨_, _, rfl⟩
        | some ev => exact ⟨_, _, rfl⟩
    · rw [if_neg hc]
      exact ⟨_, _, rfl⟩
  · intro ds es hne1 hne2 hdig1 hdig2 hge1 hge2
    have hSmem : 'S' ∈ 'S' :: ds ++ 'E' :: es := List.mem_cons_self _ _
    have hEmem : 'E' ∈ 'S' :: ds ++ 'E' :: es := by simp
    have hidxS : idxOfChar 'S' ('S' :: ds ++ 'E' :: es) = 0 := by simp [idxOfChar]
    have hidxE : idxOfChar 'E' ('S' :: ds ++ 'E' :: es) = ds.length + 1 := by
      have hS : ('S' : Char) ≠ 'E' := by decide
      simp [idxOfChar, hS, idxOfChar_E_append ds es hdig1]
    simp only [_add_episode_numbering]
    rw [if_pos ⟨hSmem, hEmem⟩, hidxS, hidxE]
    simp only [Nat.zero_add]
    rw [pySlice_digits ds es, drop_digits ds es,
      pyInt_digits ds hne1 hdig1, pyInt_digits es hne2 hdig2]
    dsimp only
    have e1 : Int.ofNat (digitsToNat ds) - 1 = Int.ofNat (digitsToNat ds - 1) := by
      show (digitsToNat ds : Int) - 1 = ((digitsToNat ds - 1 : Nat) : Int)
      omega
    have e2 : Int.ofNat (digitsToNat es) - 1 = Int.ofNat (digitsToNat es - 1) := by
      show (digitsToNat es : Int) - 1 = ((digitsToNat es - 1 : Nat) : Int)
      omega
    rw [e1, e2]
    rfl
  · intro l hS hE hfail
    simp only [_add_episode_numbering]
    rw [if_pos ⟨hS, hE⟩]
    rcases hfail with h1 | h2
    · rw [h1]
    · cases hx : pyInt (pySlice l (idxOfChar 'S' l + 1) (idxOfChar 'E' l)) with
      | none => rfl
      | some sv => rw [h2]

theorem c3_witness :
    (∃ rest w, _add_episode_numbering "7".data =
        ({ tag := "episode-num", attrs := [("system", "onscreen")],
           text := some "7" } :: rest, w))
    ∧ _add_episode_numbering "S2E5".data =
        ([{ tag := "episode-num", attrs := [("system", "onscreen")], text := some "S2E5" },
          { tag := "episode-num", attrs := [("system", "xmltv_ns")], text := some "1.4.0/0" }],
         false)
    ∧ _add_episode_numbering "SxEy".data =
        ([{ tag := "episode-num", attrs := [("system", "onscreen")], text := some "SxEy" }],
         true) := by
  refine ⟨c3_episode_numbering.1 "7".data, ?_, ?_⟩
  · have h := c3_episode_numbering.2.1 ['2'] ['5'] (by decide) (by decide)
      (by decide) (by decide) (by decide) (by decide)
    simpa using h
  · have h := c3_episode_numbering.2.2 "SxEy".data (by decide) (by decide)
      (Or.inl (by decide))
    simpa using h
